import Mathlib

/-!
Shallow embedding of the session/OTP/JWT authentication core of the
tour-fastapi application, translated from:

  app/core/security.py     (password verification, JWT create/decode)
  app/services/otp_session.py  (numeric OTP generation, OTP session state machine)
  app/web/deps.py          (CSRF guard, cookie-based current-user lookup)
  app/web/routes.py        (login / register / verify / resend / logout handlers)
  app/api/v1/auth.py       (JSON API login)

Machine timestamps are modelled as `Int` epoch seconds.  Randomness
(`secrets.randbelow`, `secrets.token_urlsafe`) and the bcrypt verifier
(`passlib`) are modelled as explicit function parameters.  The compact JWS
wire format of the `jose` library is modelled by a pair of functions
`serialize : Jwt → String` / `parse : String → Option Jwt`: `parse` returns
`none` exactly when `jose.jwt.decode` would raise `JWTError` for a malformed
or wrongly-signed string.  A Python exception escaping a function is
modelled by the `.error` constructor of `Except`.
-/

/-- Error raised out of a handler: either a FastAPI `HTTPException`
(status code and detail) or an ordinary uncaught Python exception
(`ValueError` etc.) carrying its message. -/
inductive PyErr where
  | http (status : Int) (detail : String)
  | exn (msg : String)
deriving Repr, DecidableEq

/-- Python truthiness of an optional string: `None` and `""` are falsy.
Models `if not x:` for `x : Optional[str]`. -/
def pyFalsyOptStr : Option String → Bool
  | none => true
  | some s => s = ""

/-- JWT claims dictionary as produced by `create_token`: claims `sub`,
`type`, `iat`, `exp`.  `sub`/`type` are `Option` because `payload.get`
can miss them on foreign tokens. -/
structure JwtPayload where
  sub : Option String
  type : Option String
  iat : Int
  exp : Int
deriving Repr, DecidableEq

/-- A signed JWT: the claims plus the key and algorithm it was signed
with (what `jose.jwt.encode` binds into the signature). -/
structure Jwt where
  payload : JwtPayload
  key : String
  alg : String
deriving Repr, DecidableEq

/-- `settings.SECRET_KEY` (environment-supplied; only its equality with
itself matters to the development). -/
def SECRET_KEY : String := "env-secret"

/-- `settings.JWT_ALGO` (default "HS256"). -/
def JWT_ALGO : String := "HS256"

/-- `settings.ACCESS_TOKEN_EXPIRE_MINUTES` (default 15). -/
def ACCESS_TOKEN_EXPIRE_MINUTES : Int := 15

/-- `settings.REFRESH_TOKEN_EXPIRE_DAYS` (default 7). -/
def REFRESH_TOKEN_EXPIRE_DAYS : Int := 7

/-- `settings.OTP_EXP_MINUTES` (default 10). -/
def OTP_EXP_MINUTES : Int := 10

/-- `jose.jwt.encode(payload, key, algorithm)`: sign the claims and emit
the compact string (via the ambient serializer). -/
def jwtEncode (serialize : Jwt → String) (payload : JwtPayload)
    (key : String) (alg : String) : String :=
  serialize { payload := payload, key := key, alg := alg }

/-- `jose.jwt.decode(token, key, algorithms=[alg])`: parse the compact
string; fail (`JWTError`) when malformed or when the signature does not
verify under `key`/`alg`; fail (`ExpiredSignatureError`, a `JWTError`)
when the `exp` claim is in the past (`exp < now`). -/
def jwtDecode (parse : String → Option Jwt) (now : Int) (token : String)
    (key : String) (alg : String) : Except String JwtPayload :=
  match parse token with
  | none => .error "JWTError"
  | some t =>
    if t.key = key ∧ t.alg = alg then
      if t.payload.exp < now then .error "ExpiredSignatureError"
      else .ok t.payload
    else .error "JWTError"

/-- `app/core/security.py: verify_password`.  The bcrypt verifier
`pwd_context.verify` is the parameter `bcrypt` (it may itself raise,
hence `Except`).  Python `if not password_hash:` treats both `None` and
`""` as falsy and returns `False` before bcrypt is ever consulted. -/
def verify_password (bcrypt : String → String → Except String Bool)
    (plain_password : String) (password_hash : Option String) :
    Except String Bool :=
  match password_hash with
  | none => .ok false
  | some h => if h = "" then .ok false else bcrypt plain_password h

/-- `app/core/security.py: create_token`.  `expires_delta` is in seconds
(the Python callers pass a `timedelta`). -/
def create_token (serialize : Jwt → String) (now : Int) (user_id : Int)
    (expires_delta : Int) (token_type : String) : String :=
  jwtEncode serialize
    { sub := some (toString user_id)
      type := some token_type
      iat := now
      exp := now + expires_delta }
    SECRET_KEY JWT_ALGO

/-- `app/core/security.py: decode_token`.  Any `JWTError` from the
library collapses to `ValueError("Invalid token")`; then the optional
`type` claim check, then the required `sub` claim check. -/
def decode_token (parse : String → Option Jwt) (now : Int) (token : String)
    (token_type : Option String := none) : Except String JwtPayload :=
  match jwtDecode parse now token SECRET_KEY JWT_ALGO with
  | .error _ => .error "Invalid token"
  | .ok payload =>
    match token_type with
    | some tt =>
      if payload.type ≠ some tt then .error "Wrong token type"
      else if payload.sub = none then
        .error "Invalid token payload (missing 'sub')"
      else .ok payload
    | none =>
      if payload.sub = none then
        .error "Invalid token payload (missing 'sub')"
      else .ok payload

/-- Python `str.strip()` on the submitted/stored OTP codes: drop
whitespace characters from both ends. -/
def pyStrip (s : String) : String :=
  String.mk
    (((s.data.dropWhile Char.isWhitespace).reverse.dropWhile
        Char.isWhitespace).reverse)

/-- Big-endian decimal digit characters of a natural number, as Python
`str(num)` renders them (`"0"` for zero). -/
def decimalDigitChars (num : Nat) : List Char :=
  if num = 0 then ['0'] else ((Nat.digits 10 num).reverse).map Nat.digitChar

/-- Python format `f"{num:0{width}d}"`: the decimal rendering of `num`,
left-padded with `'0'` to `width` characters (never truncated). -/
def pyZeroPad (width : Nat) (num : Nat) : String :=
  let ds := decimalDigitChars num
  String.mk (List.replicate (width - ds.length) '0' ++ ds)

/-- `app/services/otp_session.py: generate_numeric_otp`.  `n < 1` is
clamped to the default 6; `secrets.randbelow` is the parameter
`randbelow` (guaranteed by its caller contract to return a value in
`[0, upper)`). -/
def generate_numeric_otp (randbelow : Nat → Nat) (n : Int) : String :=
  let m := if n < 1 then 6 else n.toNat
  let upper : Nat := 10 ^ m
  let num := randbelow upper
  pyZeroPad m num

/-- The `otp_ctx` session dictionary built by `new_otp_ctx`.
`expires_at` is `Option`al because `_is_expired` defends against a
missing or unparsable `expires_at` entry (both modelled as `none`). -/
structure OtpCtx where
  code : String
  email : String
  user_id : Option Int
  purpose : String
  created_at : Int
  expires_at : Option Int
  attempts_left : Int
deriving Repr, DecidableEq

/-- One flash message (`app/web/deps.py: flash`): text plus a type tag. -/
structure Flash where
  text : String
  type : String
deriving Repr, DecidableEq

/-- The per-browser session dictionary, with the keys this core reads
and writes.  `post_otp_user_id` is doubly optional: the outer layer is
key presence, the inner is the stored Python value (which may be
`None`, since `new_otp_ctx` accepts `user_id: int | None`). -/
structure SessionData where
  csrf_token : Option String
  otp_ctx : Option OtpCtx
  post_otp_user_id : Option (Option Int)
  flashes : List Flash
deriving Repr, DecidableEq

/-- `app/web/deps.py: flash` — append a flash message to the session. -/
def flash (s : SessionData) (text : String) (kind : String) : SessionData :=
  { s with flashes := s.flashes ++ [{ text := text, type := kind }] }

/-- `app/services/otp_session.py: new_otp_ctx`.  Builds a fresh context,
overwrites `session["otp_ctx"]`, and stores `user_id` under
`session["post_otp_user_id"]`.  `minutes` is converted to seconds. -/
def new_otp_ctx (now : Int) (randbelow : Nat → Nat) (s : SessionData)
    (email : String) (user_id : Option Int) (purpose : String)
    (minutes : Int) (code_len : Int) (max_attempts : Int) :
    OtpCtx × SessionData :=
  let code := generate_numeric_otp randbelow code_len
  let ctx : OtpCtx :=
    { code := code
      email := email
      user_id := user_id
      purpose := purpose
      created_at := now
      expires_at := some (now + minutes * 60)
      attempts_left := max_attempts }
  (ctx, { s with otp_ctx := some ctx, post_otp_user_id := some user_id })

/-- `app/services/otp_session.py: get_otp_ctx`. -/
def get_otp_ctx (s : SessionData) : Option OtpCtx := s.otp_ctx

/-- `app/services/otp_session.py: clear_otp_ctx`
(`session.pop("otp_ctx", None)`). -/
def clear_otp_ctx (s : SessionData) : SessionData := { s with otp_ctx := none }

/-- `app/services/otp_session.py: _is_expired`.  A missing or unparsable
`expires_at` counts as expired; otherwise expired means strictly
`now > expires_at`. -/
def is_expired (now : Int) (ctx : OtpCtx) : Bool :=
  match ctx.expires_at with
  | none => true
  | some e => now > e

/-- `app/services/otp_session.py: check_code_and_update`.  Returns the
updated session together with `(ok, message)`. -/
def check_code_and_update (now : Int) (s : SessionData) (code : String) :
    SessionData × Bool × String :=
  match get_otp_ctx s with
  | none => (s, false, "No OTP session found. Please log in again.")
  | some ctx =>
    if is_expired now ctx then
      (clear_otp_ctx s, false, "OTP expired. Please log in again.")
    else if ctx.attempts_left ≤ 0 then
      (clear_otp_ctx s, false, "Too many attempts. Please log in again.")
    else
      let submitted := pyStrip code
      let real := pyStrip ctx.code
      if submitted = "" ∨ submitted ≠ real then
        let attempts := ctx.attempts_left - 1
        let s1 : SessionData :=
          { s with otp_ctx := some { ctx with attempts_left := attempts } }
        if attempts ≤ 0 then
          (clear_otp_ctx s1, false,
            "Too many incorrect attempts. Please log in again.")
        else
          (s1, false, s!"Invalid code. {attempts} attempt(s) remaining.")
      else
        (clear_otp_ctx s, true, "OTP verified.")

/-- `app/db/models/user.py: User` — the columns this core reads or
writes.  Timestamps are epoch seconds. -/
structure User where
  id : Int
  email : String
  first_name : Option String
  last_name : Option String
  personal_email : Option String
  password_hash : Option String
  is_active : Bool
  last_login_at : Option Int
  is_email_verified : Bool
  email_verified_at : Option Int
deriving Repr, DecidableEq

/-- `db.query(User).filter(User.email == email).first()`. -/
def dbFirstByEmail (db : List User) (email : String) : Option User :=
  db.find? (fun u => u.email = email)

/-- `db.get(User, uid)` — primary-key lookup. -/
def dbGetUser (db : List User) (uid : Int) : Option User :=
  db.find? (fun u => u.id = uid)

/-- Mutating a fetched ORM row and committing: replace the row with the
same primary key. -/
def dbUpdateUser (db : List User) (u : User) : List User :=
  db.map (fun v => if v.id = u.id then u else v)

/-- Autoincrement primary key assigned by `db.add` + `commit`. -/
def dbNextId (db : List User) : Int :=
  (db.map (fun u => u.id)).foldr max 0 + 1

/-- `app/web/deps.py: require_csrf`.  Raises HTTP 400 when the posted
token is falsy, the session has no (truthy) stored token, or the
constant-time comparison (`hmac.compare_digest`, functionally string
equality) fails. -/
def require_csrf (s : SessionData) (token_from_form : Option String) :
    Except PyErr Unit :=
  match token_from_form with
  | none => .error (.http 400 "Missing CSRF token")
  | some tok =>
    if tok = "" then .error (.http 400 "Missing CSRF token")
    else
      match s.csrf_token with
      | none => .error (.http 400 "CSRF token not in session")
      | some expected =>
        if expected = "" then .error (.http 400 "CSRF token not in session")
        else if expected = tok then .ok ()
        else .error (.http 400 "Invalid CSRF token")

/-- `app/web/deps.py: get_csrf_token`.  `freshToken` stands for
`secrets.token_urlsafe(32)`. -/
def get_csrf_token (freshToken : String) (s : SessionData) :
    String × SessionData :=
  match s.csrf_token with
  | none => (freshToken, { s with csrf_token := some freshToken })
  | some tok =>
    if tok = "" then (freshToken, { s with csrf_token := some freshToken })
    else (tok, s)

/-- All-decimal-digit parse helper for `pyInt` (`none` on the empty
digit list or any non-digit character). -/
def digitsToNat (cs : List Char) : Option Nat :=
  if cs = [] then none
  else
    cs.foldl
      (fun acc? c =>
        match acc? with
        | none => none
        | some a => if c.isDigit then some (10 * a + (c.toNat - 48)) else none)
      (some 0)

/-- Python `int(string)` used on the `sub` claim: optional sign then
decimal digits; `none` models the `ValueError` raised on any other
literal. -/
def pyInt (s : String) : Option Int :=
  match s.data with
  | [] => none
  | '-' :: ds => (digitsToNat ds).map (fun n => -(n : Int))
  | '+' :: ds => (digitsToNat ds).map (fun n => (n : Int))
  | ds => (digitsToNat ds).map (fun n => (n : Int))

/-- `app/web/deps.py: get_current_user_from_cookie`.  `cookies` is the
raw `access_token` cookie value.  Note the source does NOT wrap
`decode_token` in try/except: its `ValueError` propagates (modelled as
`.error (.exn ...)`), as does the `ValueError` of `int(user_id)`. -/
def get_current_user_from_cookie (parse : String → Option Jwt) (now : Int)
    (db : List User) (cookies : Option String) : Except PyErr (Option User) :=
  match cookies with
  | none => .ok none
  | some raw =>
    -- raw.startswith("Bearer "), as a character-list comparison
    if raw = "" ∨ ¬ ("Bearer ".data.isPrefixOf raw.data) then .ok none
    else
      -- raw.split(" ", 1)[1]: "Bearer" holds no space, so the first
      -- space is at index 6 and the tail starts at index 7
      let token := raw.drop 7
      match decode_token parse now token none with
      | .error msg => .error (.exn msg)
      | .ok payload =>
        -- `if not payload or payload.get("type") != "access"`: the dict is
        -- non-empty here (decode_token guarantees `sub`), so only the type
        -- test is live
        if payload.type ≠ some "access" then .ok none
        else
          match payload.sub with
          | none => .ok none
          | some sub =>
            if sub = "" then .ok none  -- `if not user_id`
            else
              match pyInt sub with
              | none => .error (.exn "invalid literal for int() with base 10")
              | some uid => .ok (dbGetUser db uid)

/-- Response of a web handler: redirect target, the `access_token`
cookie value installed by `set_access_cookie` (full `"Bearer <tok>"`
string) if any, and whether `clear_access_cookie` ran. -/
structure Resp where
  redirect_url : String
  cookie_set : Option String
  cookie_cleared : Bool
deriving Repr, DecidableEq

/-- Final state of a web POST handler: session and user table after the
request, plus either a response or the exception that escaped.  Session
and db mutations performed before a raise persist. -/
structure HandlerResult where
  session : SessionData
  db : List User
  resp : Except PyErr Resp
deriving Repr

/-- `app/web/routes.py: login_submit` (POST /login).  `randbelow` feeds
OTP generation; `bcrypt` is `pwd_context.verify`; `serialize` is the
JWS emitter.  The mailer calls have no session/db effect and are not
modelled. -/
def login_submit (serialize : Jwt → String) (now : Int)
    (randbelow : Nat → Nat) (bcrypt : String → String → Except String Bool)
    (db : List User) (s : SessionData)
    (email password csrf_token : String) : HandlerResult :=
  match require_csrf s (some csrf_token) with
  | .error e => { session := s, db := db, resp := .error e }
  | .ok _ =>
    match dbFirstByEmail db email with
    | none =>
      { session := flash s "Email not found or incorrect password" "error"
        db := db
        resp := .ok { redirect_url := "/login", cookie_set := none, cookie_cleared := false } }
    | some user =>
      if pyFalsyOptStr user.password_hash then
        { session := flash s "Email not found or incorrect password" "error"
          db := db
          resp := .ok { redirect_url := "/login", cookie_set := none, cookie_cleared := false } }
      else
        match verify_password bcrypt password user.password_hash with
        | .error e => { session := s, db := db, resp := .error (.exn e) }
        | .ok ok =>
          if ¬ ok then
            { session := flash s "Email not found or incorrect password" "error"
              db := db
              resp := .ok { redirect_url := "/login", cookie_set := none, cookie_cleared := false } }
          else if ¬ user.is_email_verified then
            let em := user.email
            let res := new_otp_ctx now randbelow s user.email (some user.id)
              "login" OTP_EXP_MINUTES 6 6
            { session := flash res.2
                s!"Verify your email to continue. We sent a code to {em}." "info"
              db := db
              resp := .ok { redirect_url := "/verify", cookie_set := none, cookie_cleared := false } }
          else
            let db1 := dbUpdateUser db { user with last_login_at := some now }
            let access := create_token serialize now user.id
              (ACCESS_TOKEN_EXPIRE_MINUTES * 60) "access"
            { session := flash s "Login successful. Welcome back!" "success"
              db := db1
              resp := .ok { redirect_url := "/post-login"
                            cookie_set := some ("Bearer " ++ access)
                            cookie_cleared := false } }

/-- `app/web/routes.py: register_submit` (POST /register).
`bcryptHash` is `hash_password`. -/
def register_submit (now : Int) (randbelow : Nat → Nat)
    (bcryptHash : String → String) (db : List User) (s : SessionData)
    (email password first_name last_name personal_email csrf_token : String) :
    HandlerResult :=
  match require_csrf s (some csrf_token) with
  | .error e => { session := s, db := db, resp := .error e }
  | .ok _ =>
    match dbFirstByEmail db email with
    | some _ =>
      { session := flash s
          ("The email address you are trying to register is already used for another account. "
            ++ "Try registering with a different email address.") "error"
        db := db
        resp := .ok { redirect_url := "/register", cookie_set := none, cookie_cleared := false } }
    | none =>
      let user : User :=
        { id := dbNextId db
          email := email
          first_name := if first_name = "" then none else some first_name
          last_name := if last_name = "" then none else some last_name
          personal_email := if personal_email = "" then none else some personal_email
          password_hash := some (bcryptHash password)
          is_active := true
          last_login_at := some now
          is_email_verified := false
          email_verified_at := none }
      let db1 := db ++ [user]
      let em := user.email
      let res := new_otp_ctx now randbelow s user.email (some user.id)
        "register" OTP_EXP_MINUTES 6 6
      -- the handler then redundantly re-stores `otp_ctx` and sends the
      -- two mails (the admin one inside try/except pass)
      { session := flash res.2 s!"OTP sent to {em}. Please verify." "info"
        db := db1
        resp := .ok { redirect_url := "/verify", cookie_set := none, cookie_cleared := false } }

/-- `app/web/routes.py: logout` (POST /logout). -/
def logout (db : List User) (s : SessionData) (csrf_token : String) :
    HandlerResult :=
  match require_csrf s (some csrf_token) with
  | .error e => { session := s, db := db, resp := .error e }
  | .ok _ =>
    { session := { s with otp_ctx := none }
      db := db
      resp := .ok { redirect_url := "/", cookie_set := none, cookie_cleared := true } }

/-- `request.session.pop("post_otp_user_id", None)` — the value the pop
yields: `None` when the key is absent, else the stored value (itself
possibly `None`). -/
def poppedUserId (s : SessionData) : Option Int :=
  match s.post_otp_user_id with
  | none => none
  | some v => v

/-- `app/web/routes.py: verify_submit` (POST /verify). -/
def verify_submit (serialize : Jwt → String) (now : Int) (db : List User)
    (s : SessionData) (code csrf_token : String) : HandlerResult :=
  match require_csrf s (some csrf_token) with
  | .error e => { session := s, db := db, resp := .error e }
  | .ok _ =>
    match check_code_and_update now s code with
    | (s1, ok, err) =>
      if ¬ ok then
        { session := flash s1 err "error"
          db := db
          resp := .ok { redirect_url := "/verify", cookie_set := none, cookie_cleared := false } }
      else
        -- request.session.pop("post_otp_user_id", None)
        let popped : Option Int := poppedUserId s1
        let s2 := { s1 with post_otp_user_id := none }
        -- `if not user_id`: Python treats None and 0 as falsy
        if popped = none ∨ popped = some 0 then
          { session := flash s2 "Session lost user id. Please log in again." "error"
            db := db
            resp := .ok { redirect_url := "/login", cookie_set := none, cookie_cleared := false } }
        else
          match popped with
          | none =>
            { session := flash s2 "Session lost user id. Please log in again." "error"
              db := db
              resp := .ok { redirect_url := "/login", cookie_set := none, cookie_cleared := false } }
          | some uid =>
            match dbGetUser db uid with
            | none =>
              { session := flash s2 "User not found. Please log in again." "error"
                db := db
                resp := .ok { redirect_url := "/login", cookie_set := none, cookie_cleared := false } }
            | some user =>
              let db1 := dbUpdateUser db
                { user with is_email_verified := true, email_verified_at := some now }
              let access := create_token serialize now user.id
                (ACCESS_TOKEN_EXPIRE_MINUTES * 60) "access"
              { session := flash s2 "OTP verified. Welcome!" "success"
                db := db1
                resp := .ok { redirect_url := "/post-login"
                              cookie_set := some ("Bearer " ++ access)
                              cookie_cleared := false } }

/-- `app/web/routes.py: verify_resend` (POST /verify/resend). -/
def verify_resend (now : Int) (randbelow : Nat → Nat) (db : List User)
    (s : SessionData) (csrf_token : String) : HandlerResult :=
  match require_csrf s (some csrf_token) with
  | .error e => { session := s, db := db, resp := .error e }
  | .ok _ =>
    match get_otp_ctx s with
    | none =>
      { session := flash s "No OTP session. Please log in again." "error"
        db := db
        resp := .ok { redirect_url := "/login", cookie_set := none, cookie_cleared := false } }
    | some ctx =>
      let res := new_otp_ctx now randbelow s ctx.email ctx.user_id
        ctx.purpose OTP_EXP_MINUTES 6 6
      { session := flash res.2 "We sent a new code." "success"
        db := db
        resp := .ok { redirect_url := "/verify", cookie_set := none, cookie_cleared := false } }

/-- `app/api/v1/auth.py: TokenPair`. -/
structure TokenPair where
  access_token : String
  refresh_token : String
deriving Repr, DecidableEq

/-- `app/api/v1/auth.py: login` (POST /api/v1/auth/login).  Unlike the
web handler, a single guard also rejects inactive users.  Returns the
updated user table and the token pair. -/
def login (serialize : Jwt → String) (now : Int)
    (bcrypt : String → String → Except String Bool) (db : List User)
    (email password : String) : Except PyErr (List User × TokenPair) :=
  match dbFirstByEmail db email with
  | none => .error (.http 401 "Invalid credentials")
  | some user =>
    match verify_password bcrypt password user.password_hash with
    | .error e => .error (.exn e)
    | .ok v =>
      if ¬ v then .error (.http 401 "Invalid credentials")
      else if ¬ user.is_active then .error (.http 401 "Invalid credentials")
      else
        let db1 := dbUpdateUser db { user with last_login_at := some now }
        .ok (db1,
          { access_token := create_token serialize now user.id
              (ACCESS_TOKEN_EXPIRE_MINUTES * 60) "access"
            refresh_token := create_token serialize now user.id
              (REFRESH_TOKEN_EXPIRE_DAYS * 86400) "refresh" })

/-! ## Claim theorems -/

instance {ε α : Type} [DecidableEq ε] [DecidableEq α] : DecidableEq (Except ε α)
  | .error e, .error f =>
    if h : e = f then isTrue (by rw [h])
    else isFalse (fun hh => by cases hh; exact h rfl)
  | .error _, .ok _ => isFalse (fun hh => by cases hh)
  | .ok _, .error _ => isFalse (fun hh => by cases hh)
  | .ok a, .ok b =>
    if h : a = b then isTrue (by rw [h])
    else isFalse (fun hh => by cases hh; exact h rfl)

/-- C9: for every plaintext and every behavior of the underlying bcrypt
verifier, `verify_password` with an absent (`None`) or empty stored hash
returns `false` and raises no exception. -/
theorem C9_verify_password_absent_hash
    (bcrypt : String → String → Except String Bool) (plain : String) :
    verify_password bcrypt plain none = .ok false ∧
    verify_password bcrypt plain (some "") = .ok false := by
  exact ⟨rfl, rfl⟩

/-- C1 (code evaluated at the failing input): with an `access_token`
cookie carrying the `"Bearer "` marker but a token that fails to decode,
`get_current_user_from_cookie` does NOT return `none`: the
`ValueError("Invalid token")` raised by `decode_token` escapes the
function uncaught. -/
theorem C1_decode_failure_escapes :
    get_current_user_from_cookie (fun _ => none) 0 [] (some "Bearer garbage") =
      .error (.exn "Invalid token") := by
  decide

/-- C6: an access token round-trips through `decode_token` with
`token_type="access"` while unexpired, yielding `sub = str(uid)` and
`type = "access"`, and the same token is rejected with
`token_type="refresh"`.  `hcodec` is the `jose` wire guarantee that
parsing the emitted compact string recovers the signed token. -/
theorem C6_token_roundtrip (serialize : Jwt → String)
    (parse : String → Option Jwt) (now uid ttl dtime : Int)
    (httl : 0 < ttl) (hunexp : dtime ≤ now + ttl)
    (hcodec : parse (create_token serialize now uid ttl "access") =
      some { payload := { sub := some (toString uid), type := some "access"
                          iat := now, exp := now + ttl }
             key := SECRET_KEY, alg := JWT_ALGO }) :
    decode_token parse dtime (create_token serialize now uid ttl "access")
        (some "access") =
      .ok { sub := some (toString uid), type := some "access"
            iat := now, exp := now + ttl } ∧
    decode_token parse dtime (create_token serialize now uid ttl "access")
        (some "refresh") =
      .error "Wrong token type" := by
  have hx : ¬ (now + ttl < dtime) := not_lt.mpr hunexp
  constructor <;> simp [decode_token, jwtDecode, hcodec, hx]

/-- Witness for C6 at a concrete token (`uid = 7`, `ttl = 60`, decoded
at `dtime = 30`). -/
theorem C6_token_roundtrip_witness :
    decode_token
        (fun _ => some { payload := { sub := some "7", type := some "access"
                                      iat := 0, exp := 60 }
                         key := SECRET_KEY, alg := JWT_ALGO })
        30 (create_token (fun _ => "tok") 0 7 60 "access") (some "access") =
      .ok { sub := some "7", type := some "access", iat := 0, exp := 60 } ∧
    decode_token
        (fun _ => some { payload := { sub := some "7", type := some "access"
                                      iat := 0, exp := 60 }
                         key := SECRET_KEY, alg := JWT_ALGO })
        30 (create_token (fun _ => "tok") 0 7 60 "access") (some "refresh") =
      .error "Wrong token type" := by
  exact C6_token_roundtrip (fun _ => "tok")
    (fun _ => some { payload := { sub := some "7", type := some "access"
                                  iat := 0, exp := 60 }
                     key := SECRET_KEY, alg := JWT_ALGO })
    0 7 60 30 (by decide) (by decide) (by decide)

/-- A concrete OTP context expiring at epoch second 600. -/
def ctxC3 : OtpCtx :=
  { code := "123456", email := "a@x.com", user_id := some 1
    purpose := "login", created_at := 0, expires_at := some 600
    attempts_left := 6 }

/-- A concrete session holding `ctxC3`. -/
def sC3 : SessionData :=
  { csrf_token := some "t", otp_ctx := some ctxC3
    post_otp_user_id := some (some 1), flashes := [] }

/-- C3 counterexample: at `now = expires_at` (so `now >= expires_at`)
the check does NOT fail with "expired": the correct code still
succeeds and consumes the context. -/
theorem C3_counterexample :
    ctxC3.expires_at = some 600 ∧
    check_code_and_update 600 sC3 "123456" =
      (clear_otp_ctx sC3, true, "OTP verified.") := by
  decide

/-- C3 amended: expiry is strict — the check clears the context and
fails "expired" exactly when `now > expires_at`; at `now ≤ expires_at`
(including the boundary `now = expires_at`) a matching code on a
context with attempts remaining still succeeds. -/
theorem C3_expiry_strict (now e : Int) (s : SessionData) (ctx : OtpCtx)
    (code : String) (hctx : s.otp_ctx = some ctx)
    (he : ctx.expires_at = some e) :
    (e < now →
      check_code_and_update now s code =
        (clear_otp_ctx s, false, "OTP expired. Please log in again.")) ∧
    (now ≤ e → 0 < ctx.attempts_left → pyStrip code ≠ "" →
      pyStrip code = pyStrip ctx.code →
      check_code_and_update now s code =
        (clear_otp_ctx s, true, "OTP verified.")) := by
  constructor
  · intro hlt
    unfold check_code_and_update get_otp_ctx
    rw [hctx]
    simp [is_expired, he, hlt]
  · intro hle ha hne hmatch
    have hne2 : pyStrip ctx.code ≠ "" := hmatch ▸ hne
    unfold check_code_and_update get_otp_ctx
    rw [hctx]
    have hexp : is_expired now ctx = false := by
      simp [is_expired, he]
      omega
    simp [hexp, hmatch, hne, hne2, not_le.mpr ha, not_lt.mpr ha]

/-- Witness for C3 at the concrete context `ctxC3`: strictly after
expiry the check fails "expired"; exactly at expiry the correct code
succeeds. -/
theorem C3_expiry_strict_witness :
    check_code_and_update 601 sC3 "123456" =
      (clear_otp_ctx sC3, false, "OTP expired. Please log in again.") ∧
    check_code_and_update 600 sC3 "123456" =
      (clear_otp_ctx sC3, true, "OTP verified.") :=
  ⟨(C3_expiry_strict 601 600 sC3 ctxC3 "123456" rfl rfl).1 (by decide),
   (C3_expiry_strict 600 600 sC3 ctxC3 "123456" rfl rfl).2 (by decide)
     (by decide) (by decide) (by decide)⟩

/-- A sequence of OTP submissions: fold `check_code_and_update` over the
submitted codes, keeping the evolving session. -/
def runChecks (now : Int) (s : SessionData) (codes : List String) :
    SessionData :=
  codes.foldl (fun st c => (check_code_and_update now st c).1) s

/-- With no context in the session, a check reports "no OTP session"
and leaves the session unchanged. -/
lemma check_none_state (now : Int) (s : SessionData) (c : String)
    (h : s.otp_ctx = none) :
    check_code_and_update now s c =
      (s, false, "No OTP session found. Please log in again.") := by
  unfold check_code_and_update get_otp_ctx
  rw [h]

/-- With no context, any number of further submissions leaves the
session unchanged. -/
lemma runChecks_none (now : Int) (codes : List String) :
    ∀ s : SessionData, s.otp_ctx = none → runChecks now s codes = s := by
  induction codes with
  | nil => intro s _; rfl
  | cons c cs ih =>
    intro s h
    show runChecks now (check_code_and_update now s c).1 cs = s
    rw [check_none_state now s c h]
    exact ih s h

/-- A single wrong submission against a live, unexpired context with
one attempt left clears the context. -/
lemma check_wrong_last (now e : Int) (s : SessionData) (ctx : OtpCtx)
    (c : String) (hctx : s.otp_ctx = some ctx) (he : ctx.expires_at = some e)
    (hne : now ≤ e) (ha : 0 < ctx.attempts_left)
    (h1 : ctx.attempts_left ≤ 1)
    (hw : pyStrip c = "" ∨ pyStrip c ≠ pyStrip ctx.code) :
    check_code_and_update now s c =
      ({ s with otp_ctx := none }, false,
        "Too many incorrect attempts. Please log in again.") := by
  unfold check_code_and_update get_otp_ctx clear_otp_ctx
  rw [hctx]
  have hexp : is_expired now ctx = false := by
    simp [is_expired, he]
    omega
  have hcond : pyStrip c = "" ∨ pyStrip c ≠ pyStrip ctx.code := hw
  simp [hexp, not_le.mpr ha, hcond]
  omega

/-- A single wrong submission against a live, unexpired context with
more than one attempt left decrements the counter by exactly one. -/
lemma check_wrong_decrement (now e : Int) (s : SessionData) (ctx : OtpCtx)
    (c : String) (hctx : s.otp_ctx = some ctx) (he : ctx.expires_at = some e)
    (hne : now ≤ e) (h1 : 1 < ctx.attempts_left)
    (hw : pyStrip c = "" ∨ pyStrip c ≠ pyStrip ctx.code) :
    check_code_and_update now s c =
      ({ s with otp_ctx := some { ctx with attempts_left := ctx.attempts_left - 1 } },
        false, s!"Invalid code. {ctx.attempts_left - 1} attempt(s) remaining.") := by
  unfold check_code_and_update get_otp_ctx clear_otp_ctx
  rw [hctx]
  have hexp : is_expired now ctx = false := by
    simp [is_expired, he]
    omega
  have hcond : pyStrip c = "" ∨ pyStrip c ≠ pyStrip ctx.code := hw
  have g0 : ¬ (ctx.attempts_left ≤ 0) := by omega
  have g1 : ¬ (ctx.attempts_left ≤ 1) := by omega
  simp [hexp, hcond, g0, g1]

/-- Running only wrong submissions against a live, unexpired context:
as long as fewer codes than attempts were submitted the counter is
decremented one-for-one; once at least `attempts_left` wrong codes are
in, the context is removed (and stays removed). -/
lemma runChecks_wrong (now e : Int) :
    ∀ (codes : List String) (s : SessionData) (ctx : OtpCtx),
      s.otp_ctx = some ctx → ctx.expires_at = some e → now ≤ e →
      0 < ctx.attempts_left →
      (∀ c ∈ codes, pyStrip c = "" ∨ pyStrip c ≠ pyStrip ctx.code) →
      (((codes.length : Int) < ctx.attempts_left →
         runChecks now s codes =
           { s with otp_ctx := some { ctx with attempts_left := ctx.attempts_left - codes.length } }) ∧
       (ctx.attempts_left ≤ (codes.length : Int) →
         runChecks now s codes = { s with otp_ctx := none })) := by
  intro codes
  induction codes with
  | nil =>
    intro s ctx hctx he hne ha hw
    constructor
    · intro _
      have h1 : ({ ctx with attempts_left := ctx.attempts_left - ((0:Nat):Int) } : OtpCtx) = ctx := by
        simp
      rw [show ((List.nil (α := String)).length : Int) = ((0:Nat):Int) from rfl]
      rw [h1]
      show s = { s with otp_ctx := some ctx }
      cases s
      simp_all
    · intro hle
      simp at hle
      omega
  | cons c cs ih =>
    intro s ctx hctx he hne ha hw
    have hwc : pyStrip c = "" ∨ pyStrip c ≠ pyStrip ctx.code :=
      hw c (List.mem_cons_self c cs)
    have hwcs : ∀ x ∈ cs, pyStrip x = "" ∨ pyStrip x ≠ pyStrip ctx.code :=
      fun x hx => hw x (List.mem_cons_of_mem c hx)
    by_cases h1 : ctx.attempts_left ≤ 1
    · -- the submission consumes the last attempt: context removed
      have hstep := check_wrong_last now e s ctx c hctx he hne ha h1 hwc
      have hrun : runChecks now s (c :: cs) =
          runChecks now ({ s with otp_ctx := none }) cs := by
        show runChecks now (check_code_and_update now s c).1 cs = _
        rw [hstep]
      rw [hrun, runChecks_none now cs _ rfl]
      constructor
      · intro hlt
        exfalso
        have : (0:Int) ≤ (cs.length : Int) := by positivity
        simp [List.length_cons] at hlt
        omega
      · intro _
        rfl
    · -- more than one attempt left: counter decremented, recurse
      have h1' : 1 < ctx.attempts_left := by omega
      have hstep := check_wrong_decrement now e s ctx c hctx he hne h1' hwc
      have hrun : runChecks now s (c :: cs) =
          runChecks now
            ({ s with otp_ctx := some { ctx with attempts_left := ctx.attempts_left - 1 } }) cs := by
        show runChecks now (check_code_and_update now s c).1 cs = _
        rw [hstep]
      have ihx := ih
        ({ s with otp_ctx := some { ctx with attempts_left := ctx.attempts_left - 1 } })
        ({ ctx with attempts_left := ctx.attempts_left - 1 })
        rfl (by simp [he]) hne (by simp; omega)
        (by simpa using hwcs)
      constructor
      · intro hlt
        have hlt' : ((cs.length : Int)) < ctx.attempts_left - 1 := by
          simp [List.length_cons] at hlt
          omega
        rw [hrun, ihx.1 hlt']
        have harith : ctx.attempts_left - 1 - (cs.length : Int) =
            ctx.attempts_left - ((c :: cs).length : Int) := by
          simp [List.length_cons]
          omega
        simp [harith]
      · intro hle
        have hle' : ctx.attempts_left - 1 ≤ (cs.length : Int) := by
          simp [List.length_cons] at hle
          omega
        rw [hrun, ihx.2 hle']

/-- C5: starting from a live, unexpired context with
`attempts_left = k ≥ 1` and a sequence of wrong submissions inside the
TTL: after `j < k` wrong submissions the counter is exactly `k - j`
(decrement by exactly one per wrong submission); after `j ≥ k`
submissions the context has been removed (removal happens exactly at
the `k`-th); any surviving counter is strictly positive (never
negative); and once `k` wrong submissions are in, a further submission
reports that no OTP session exists. -/
theorem C5_attempts_lifecycle (now e k : Int) (ctx : OtpCtx)
    (s : SessionData) (codes : List String) (extra : String)
    (hctx : s.otp_ctx = some ctx) (hk : ctx.attempts_left = k) (hk1 : 1 ≤ k)
    (he : ctx.expires_at = some e) (hne : now ≤ e)
    (hwrong : ∀ c ∈ codes, pyStrip c = "" ∨ pyStrip c ≠ pyStrip ctx.code) :
    (∀ j : Nat, j ≤ codes.length → (j : Int) < k →
       (runChecks now s (codes.take j)).otp_ctx = some { ctx with attempts_left := k - j }) ∧
    (∀ j : Nat, j ≤ codes.length → k ≤ (j : Int) →
       (runChecks now s (codes.take j)).otp_ctx = none) ∧
    (∀ (j : Nat) (ctx2 : OtpCtx), j ≤ codes.length →
       (runChecks now s (codes.take j)).otp_ctx = some ctx2 →
       0 < ctx2.attempts_left) ∧
    (k ≤ (codes.length : Int) →
       check_code_and_update now (runChecks now s codes) extra =
         (runChecks now s codes, false,
           "No OTP session found. Please log in again.")) := by
  have key : ∀ j : Nat, j ≤ codes.length →
      (((j : Int) < k →
        (runChecks now s (codes.take j)).otp_ctx = some { ctx with attempts_left := k - j }) ∧
       (k ≤ (j : Int) →
        (runChecks now s (codes.take j)).otp_ctx = none)) := by
    intro j hj
    have hlen : (((codes.take j).length : Nat) : Int) = (j : Int) := by
      rw [List.length_take]
      norm_cast
      omega
    have hwrong' : ∀ c ∈ codes.take j,
        pyStrip c = "" ∨ pyStrip c ≠ pyStrip ctx.code :=
      fun c hc => hwrong c (List.take_subset j codes hc)
    have H := runChecks_wrong now e (codes.take j) s ctx hctx he hne
      (by omega) hwrong'
    constructor
    · intro hjk
      have hcond : (((codes.take j).length : Nat) : Int) < ctx.attempts_left := by
        rw [hlen, hk]; exact hjk
      have harith : ctx.attempts_left - (((codes.take j).length : Nat) : Int) =
          k - (j : Int) := by
        rw [hk, hlen]
      rw [H.1 hcond, harith]
    · intro hkj
      have hcond : ctx.attempts_left ≤ (((codes.take j).length : Nat) : Int) := by
        rw [hlen, hk]; exact hkj
      rw [H.2 hcond]
  refine ⟨fun j hj => (key j hj).1, fun j hj => (key j hj).2, ?_, ?_⟩
  · intro j ctx2 hj hsome
    by_cases hjk : (j : Int) < k
    · rw [(key j hj).1 hjk] at hsome
      injection hsome with h2
      rw [← h2]
      simp
      omega
    · rw [(key j hj).2 (by omega)] at hsome
      cases hsome
  · intro hlek
    have H := runChecks_wrong now e codes s ctx hctx he hne (by omega) hwrong
    have hdone : runChecks now s codes = { s with otp_ctx := none } :=
      H.2 (by rw [hk]; exact hlek)
    rw [hdone]
    exact check_none_state now _ extra rfl

/-- A concrete context with two attempts for the C5 witness. -/
def ctxC5 : OtpCtx :=
  { code := "123456", email := "a@x.com", user_id := some 1
    purpose := "login", created_at := 0, expires_at := some 600
    attempts_left := 2 }

/-- A concrete session holding `ctxC5`. -/
def sC5 : SessionData :=
  { csrf_token := some "t", otp_ctx := some ctxC5
    post_otp_user_id := some (some 1), flashes := [] }

/-- Witness for C5 with `k = 2` and two wrong submissions: one wrong
submission leaves one attempt, the second removes the context, and a
third finds no OTP session. -/
theorem C5_attempts_lifecycle_witness :
    (runChecks 0 sC5 (["9","8"].take 1)).otp_ctx =
      some { ctxC5 with attempts_left := 1 } ∧
    (runChecks 0 sC5 (["9","8"].take 2)).otp_ctx = none ∧
    check_code_and_update 0 (runChecks 0 sC5 ["9","8"]) "7" =
      (runChecks 0 sC5 ["9","8"], false,
        "No OTP session found. Please log in again.") := by
  have T := C5_attempts_lifecycle 0 600 2 ctxC5 sC5 ["9","8"] "7"
    rfl rfl (by decide) rfl (by decide) (by decide)
  refine ⟨?_, T.2.1 2 (by decide) (by decide), T.2.2.2 (by decide)⟩
  have h := T.1 1 (by decide) (by decide)
  simpa using h

/-- Parse a decimal digit string back to the number it denotes. -/
def parseDecimalString (s : String) : Nat :=
  s.data.foldl (fun a c => 10 * a + (c.toNat - 48)) 0

/-- A number below `10 ^ m` has at most `m` decimal digits. -/
lemma digits_len_le_of_lt_pow {num m : Nat} (h : num < 10 ^ m) :
    (Nat.digits 10 num).length ≤ m := by
  by_cases h0 : num = 0
  · subst h0
    simp
  · by_contra hlen
    push_neg at hlen
    have hb : (1:Nat) < 10 := by norm_num
    have h1 : 10 ^ (Nat.digits 10 num).length ≤ 10 * num :=
      Nat.base_pow_length_digits_le 10 num hb h0
    have h2 : 10 ^ (m + 1) ≤ 10 ^ (Nat.digits 10 num).length :=
      Nat.pow_le_pow_right (by norm_num) hlen
    have h3 : 10 ^ m * 10 ≤ 10 * num := by
      calc 10 ^ m * 10 = 10 ^ (m + 1) := (pow_succ 10 m).symm
        _ ≤ 10 ^ (Nat.digits 10 num).length := h2
        _ ≤ 10 * num := h1
    omega

/-- `Nat.digitChar` of a digit is a decimal digit character. -/
lemma digitChar_isDigit {d : Nat} (h : d < 10) :
    (Nat.digitChar d).isDigit = true := by
  interval_cases d <;> decide

/-- `Nat.digitChar` of a digit, decoded back via its code point. -/
lemma digitChar_val {d : Nat} (h : d < 10) :
    (Nat.digitChar d).toNat - 48 = d := by
  interval_cases d <;> decide

/-- Folding the decimal parser over rendered digits accumulates the
denoted value. -/
lemma foldl_digitChars (L : List Nat) :
    ∀ a : Nat, (∀ d ∈ L, d < 10) →
      (L.map Nat.digitChar).foldl (fun acc c => 10 * acc + (c.toNat - 48)) a
        = a * 10 ^ L.length + Nat.ofDigits 10 L.reverse := by
  induction L with
  | nil => intro a _; simp [Nat.ofDigits]
  | cons d ds ih =>
    intro a hL
    have hd : d < 10 := hL d (List.mem_cons_self d ds)
    have hds : ∀ x ∈ ds, x < 10 := fun x hx => hL x (List.mem_cons_of_mem d hx)
    have hstep : (10 * a + ((Nat.digitChar d).toNat - 48)) = 10 * a + d := by
      rw [digitChar_val hd]
    calc ((d :: ds).map Nat.digitChar).foldl
            (fun acc c => 10 * acc + (c.toNat - 48)) a
        = (ds.map Nat.digitChar).foldl
            (fun acc c => 10 * acc + (c.toNat - 48)) (10 * a + d) := by
          simp [List.foldl_cons, hstep]
      _ = (10 * a + d) * 10 ^ ds.length + Nat.ofDigits 10 ds.reverse :=
          ih (10 * a + d) hds
      _ = a * 10 ^ (d :: ds).length + Nat.ofDigits 10 ((d :: ds).reverse) := by
          rw [List.reverse_cons, Nat.ofDigits_append, Nat.ofDigits_singleton]
          simp [List.length_cons, List.length_reverse, pow_succ]
          ring

/-- Leading zero padding contributes nothing to the parsed value. -/
lemma foldl_zeros (z : Nat) :
    ∀ a : Nat,
      (List.replicate z '0').foldl (fun acc c => 10 * acc + (c.toNat - 48)) a
        = a * 10 ^ z := by
  induction z with
  | zero => intro a; simp
  | succ n ih =>
    intro a
    have : ('0'.toNat - 48) = 0 := by decide
    calc (List.replicate (n + 1) '0').foldl
            (fun acc c => 10 * acc + (c.toNat - 48)) a
        = (List.replicate n '0').foldl
            (fun acc c => 10 * acc + (c.toNat - 48)) (10 * a) := by
          simp [List.replicate_succ, this]
      _ = (10 * a) * 10 ^ n := ih (10 * a)
      _ = a * 10 ^ (n + 1) := by ring

/-- `decimalDigitChars num` renders some digit list whose value is
`num` and which has at least one character. -/
lemma decimalDigitChars_spec (num : Nat) :
    ∃ L : List Nat, decimalDigitChars num = L.map Nat.digitChar ∧
      (∀ d ∈ L, d < 10) ∧ Nat.ofDigits 10 L.reverse = num ∧ 1 ≤ L.length ∧
      L.length = if num = 0 then 1 else (Nat.digits 10 num).length := by
  by_cases h0 : num = 0
  · subst h0
    refine ⟨[0], by decide, by decide, by simp [Nat.ofDigits], by decide, by decide⟩
  · refine ⟨(Nat.digits 10 num).reverse, ?_, ?_, ?_, ?_, ?_⟩
    · simp [decimalDigitChars, h0]
    · intro d hd
      exact Nat.digits_lt_base (by norm_num) (List.mem_reverse.mp hd)
    · rw [List.reverse_reverse]
      exact Nat.ofDigits_digits 10 num
    · have hne : Nat.digits 10 num ≠ [] := Nat.digits_ne_nil_iff_ne_zero.mpr h0
      rw [List.length_reverse]
      exact List.length_pos.mpr hne
    · simp [List.length_reverse, h0]

/-- Full characterization of the zero-padded rendering for values below
`10 ^ w` with `w ≥ 1`: exactly `w` characters, all digits, parsing back
to the value. -/
lemma pyZeroPad_spec {w num : Nat} (h1 : 1 ≤ w) (h : num < 10 ^ w) :
    (pyZeroPad w num).length = w ∧
    (∀ c ∈ (pyZeroPad w num).data, c.isDigit = true) ∧
    parseDecimalString (pyZeroPad w num) = num := by
  obtain ⟨L, hmap, hlt, hval, hlen1, hlenif⟩ := decimalDigitChars_spec num
  have hlenle : (decimalDigitChars num).length ≤ w := by
    rw [hmap, List.length_map, hlenif]
    by_cases h0 : num = 0
    · simp [h0]; omega
    · simp [h0]
      exact digits_len_le_of_lt_pow h
  have hdata : (pyZeroPad w num).data =
      List.replicate (w - (decimalDigitChars num).length) '0'
        ++ decimalDigitChars num := rfl
  refine ⟨?_, ?_, ?_⟩
  · show (pyZeroPad w num).data.length = w
    rw [hdata, List.length_append, List.length_replicate]
    omega
  · intro c hc
    rw [hdata, List.mem_append] at hc
    rcases hc with hc | hc
    · rw [List.eq_of_mem_replicate hc]
      decide
    · rw [hmap] at hc
      obtain ⟨d, hd, rfl⟩ := List.mem_map.mp hc
      exact digitChar_isDigit (hlt d hd)
  · show (pyZeroPad w num).data.foldl (fun a c => 10 * a + (c.toNat - 48)) 0 = num
    rw [hdata, List.foldl_append, foldl_zeros, hmap]
    simp only [Nat.zero_mul]
    rw [foldl_digitChars L 0 hlt, hval]
    simp

/-- C8 amended: for every `n ≥ 1` (the source clamps `n < 1` to 6) and
any `secrets.randbelow` behavior honouring its contract,
`generate_numeric_otp n` is exactly `n` characters, every character a
decimal digit, and the string parses back to the drawn value, which
lies in `[0, 10 ^ n)`. -/
theorem C8_generate_numeric_otp_spec (randbelow : Nat → Nat) (n : Int)
    (hn : 1 ≤ n) (hr : ∀ u : Nat, 0 < u → randbelow u < u) :
    (generate_numeric_otp randbelow n).length = n.toNat ∧
    (∀ c ∈ (generate_numeric_otp randbelow n).data, c.isDigit = true) ∧
    parseDecimalString (generate_numeric_otp randbelow n) =
      randbelow (10 ^ n.toNat) ∧
    randbelow (10 ^ n.toNat) < 10 ^ n.toNat := by
  have hnlt : ¬ (n < 1) := by omega
  have hgen : generate_numeric_otp randbelow n =
      pyZeroPad n.toNat (randbelow (10 ^ n.toNat)) := by
    simp [generate_numeric_otp, hnlt]
  have hm1 : 1 ≤ n.toNat := by omega
  have hnum : randbelow (10 ^ n.toNat) < 10 ^ n.toNat :=
    hr _ (by positivity)
  obtain ⟨hl, hd, hp⟩ := pyZeroPad_spec hm1 hnum
  exact ⟨by rw [hgen]; exact hl, by rw [hgen]; exact hd,
    by rw [hgen]; exact hp, hnum⟩

/-- C8 counterexample: at `code_length = 0` the result does not have
`0` characters — the source clamps the length to 6
(`generate_numeric_otp(0)` is a 6-character string). -/
theorem C8_counterexample :
    generate_numeric_otp (fun _ => 0) 0 = "000000" ∧
    (generate_numeric_otp (fun _ => 0) 0).length = 6 := by
  exact ⟨by decide, by decide⟩

/-- Witness for C8 at `n = 3` with the randomness oracle returning
`upper - 1`: three characters parsing back to `999 < 1000`. -/
theorem C8_generate_numeric_otp_spec_witness :
    (generate_numeric_otp (fun u => u - 1) 3).length = 3 ∧
    parseDecimalString (generate_numeric_otp (fun u => u - 1) 3) = 999 ∧
    (999 : Nat) < 10 ^ ((3:Int)).toNat := by
  have T := C8_generate_numeric_otp_spec (fun u => u - 1) 3 (by decide)
    (fun u hu => by show u - 1 < u; omega)
  refine ⟨by simpa using T.1, ?_, by simpa using T.2.2.2⟩
  have h := T.2.2.1
  norm_num at h
  simpa using h

/-- The OTP context `login_submit` creates for an unverified user. -/
def loginOtpCtx (now : Int) (randbelow : Nat → Nat) (u : User) : OtpCtx :=
  { code := generate_numeric_otp randbelow 6
    email := u.email
    user_id := some u.id
    purpose := "login"
    created_at := now
    expires_at := some (now + OTP_EXP_MINUTES * 60)
    attempts_left := 6 }

/-- C4: a web login with correct password for an existing identity with
`is_email_verified = false` creates an OTP context with purpose
"login" (and stores the pending user id), redirects to /verify, leaves
the user table untouched, and sets no access cookie. -/
theorem C4_unverified_login_starts_otp (serialize : Jwt → String)
    (now : Int) (randbelow : Nat → Nat)
    (bcrypt : String → String → Except String Bool) (db : List User)
    (s : SessionData) (email password csrf : String) (u : User)
    (hcsrf : require_csrf s (some csrf) = .ok ())
    (hu : dbFirstByEmail db email = some u)
    (hhash : pyFalsyOptStr u.password_hash = false)
    (hpw : verify_password bcrypt password u.password_hash = .ok true)
    (hnv : u.is_email_verified = false) :
    login_submit serialize now randbelow bcrypt db s email password csrf =
      { session := flash
          { s with otp_ctx := some (loginOtpCtx now randbelow u), post_otp_user_id := some (some u.id) }
          (s!"Verify your email to continue. We sent a code to {u.email}.")
          "info"
        db := db
        resp := .ok { redirect_url := "/verify", cookie_set := none
                      cookie_cleared := false } } := by
  simp [login_submit, hcsrf, hu, hpw, hhash, hnv, new_otp_ctx, loginOtpCtx]

/-- A concrete unverified, active user (password hash "h"). -/
def uUnv : User :=
  { id := 2, email := "b@x.com", first_name := none, last_name := none
    personal_email := none, password_hash := some "h", is_active := true
    last_login_at := none, is_email_verified := false
    email_verified_at := none }

/-- A concrete session whose CSRF token is "t". -/
def sTok : SessionData :=
  { csrf_token := some "t", otp_ctx := none, post_otp_user_id := none
    flashes := [] }

/-- A concrete bcrypt verifier accepting exactly password "pw" against
hash "h". -/
def bcryptOk : String → String → Except String Bool :=
  fun p h => .ok (p == "pw" && h == "h")

/-- Witness for C4: the concrete unverified user logging in with the
right password is routed into the login-purpose OTP flow with no
cookie. -/
theorem C4_unverified_login_starts_otp_witness :
    login_submit (fun _ => "tok") 0 (fun _ => 5) bcryptOk [uUnv] sTok
        "b@x.com" "pw" "t" =
      { session := flash
          { sTok with otp_ctx := some (loginOtpCtx 0 (fun _ => 5) uUnv), post_otp_user_id := some (some uUnv.id) }
          (s!"Verify your email to continue. We sent a code to {uUnv.email}.")
          "info"
        db := [uUnv]
        resp := .ok { redirect_url := "/verify", cookie_set := none
                      cookie_cleared := false } } :=
  C4_unverified_login_starts_otp (fun _ => "tok") 0 (fun _ => 5) bcryptOk
    [uUnv] sTok "b@x.com" "pw" "t" uUnv (by decide) (by decide) (by decide)
    (by decide) (by decide)

/-- C7: whenever the posted CSRF token is empty, the session holds no
(truthy) token, or the comparison fails, every state-changing POST
handler (login, register, verify, verify/resend, logout) returns the
HTTP 400 rejection raised by `require_csrf`, with session and user
table exactly as they were — no mutation happened. -/
theorem C7_csrf_rejects_before_mutation (serialize : Jwt → String)
    (now : Int) (randbelow : Nat → Nat)
    (bcrypt : String → String → Except String Bool)
    (bcryptHash : String → String) (db : List User) (s : SessionData)
    (email password code first_name last_name personal_email csrf : String)
    (hfail : csrf = "" ∨ pyFalsyOptStr s.csrf_token = true ∨
      s.csrf_token ≠ some csrf) :
    ∃ d : String,
      require_csrf s (some csrf) = .error (.http 400 d) ∧
      login_submit serialize now randbelow bcrypt db s email password csrf =
        { session := s, db := db, resp := .error (.http 400 d) } ∧
      register_submit now randbelow bcryptHash db s email password
          first_name last_name personal_email csrf =
        { session := s, db := db, resp := .error (.http 400 d) } ∧
      verify_submit serialize now db s code csrf =
        { session := s, db := db, resp := .error (.http 400 d) } ∧
      verify_resend now randbelow db s csrf =
        { session := s, db := db, resp := .error (.http 400 d) } ∧
      logout db s csrf =
        { session := s, db := db, resp := .error (.http 400 d) } := by
  have herr : ∃ d : String,
      require_csrf s (some csrf) = .error (.http 400 d) := by
    by_cases h1 : csrf = ""
    · exact ⟨"Missing CSRF token", by simp [require_csrf, h1]⟩
    · rcases hs : s.csrf_token with _ | expected
      · exact ⟨"CSRF token not in session", by simp [require_csrf, h1, hs]⟩
      · by_cases h2 : expected = ""
        · exact ⟨"CSRF token not in session",
            by simp [require_csrf, h1, hs, h2]⟩
        · have h3 : expected ≠ csrf := by
            rcases hfail with hf | hf | hf
            · exact absurd hf h1
            · rw [hs] at hf
              simp [pyFalsyOptStr] at hf
              exact absurd hf h2
            · rw [hs] at hf
              intro hcontra
              exact hf (by rw [hcontra])
          exact ⟨"Invalid CSRF token", by simp [require_csrf, h1, hs, h2, h3]⟩
  obtain ⟨d, hd⟩ := herr
  refine ⟨d, hd, ?_, ?_, ?_, ?_, ?_⟩
  · simp [login_submit, hd]
  · simp [register_submit, hd]
  · simp [verify_submit, hd]
  · simp [verify_resend, hd]
  · simp [logout, hd]

/-- Witness for C7: a session whose stored CSRF token is "t" receiving
a POST with token "bad" — all five handlers reject with 400 and change
nothing. -/
theorem C7_csrf_rejects_before_mutation_witness :
    ∃ d : String,
      require_csrf sTok (some "bad") = .error (.http 400 d) ∧
      login_submit (fun _ => "tok") 0 (fun _ => 5) bcryptOk [] sTok
          "e@x.com" "pw" "bad" =
        { session := sTok, db := [], resp := .error (.http 400 d) } ∧
      register_submit 0 (fun _ => 5) (fun p => p) [] sTok "e@x.com" "pw"
          "f" "l" "pe" "bad" =
        { session := sTok, db := [], resp := .error (.http 400 d) } ∧
      verify_submit (fun _ => "tok") 0 [] sTok "123456" "bad" =
        { session := sTok, db := [], resp := .error (.http 400 d) } ∧
      verify_resend 0 (fun _ => 5) [] sTok "bad" =
        { session := sTok, db := [], resp := .error (.http 400 d) } ∧
      logout [] sTok "bad" =
        { session := sTok, db := [], resp := .error (.http 400 d) } :=
  C7_csrf_rejects_before_mutation (fun _ => "tok") 0 (fun _ => 5) bcryptOk
    (fun p => p) [] sTok "e@x.com" "pw" "123456" "f" "l" "pe" "bad"
    (by decide)

/-- A concrete inactive but email-verified user (password hash "h"). -/
def uC2 : User :=
  { id := 1, email := "u@x.com", first_name := none, last_name := none
    personal_email := none, password_hash := some "h", is_active := false
    last_login_at := none, is_email_verified := true
    email_verified_at := some 0 }

/-- C2 counterexample: the web `login_submit` never consults the active
flag — an inactive, verified identity with the right password gets the
success redirect WITH the access cookie set, instead of the generic
invalid-credentials failure the claim demands. -/
theorem C2_counterexample :
    uC2.is_active = false ∧
    verify_password bcryptOk "pw" uC2.password_hash = .ok true ∧
    (login_submit (fun _ => "tok") 0 (fun _ => 5) bcryptOk [uC2] sTok
        "u@x.com" "pw" "t").resp =
      .ok { redirect_url := "/post-login", cookie_set := some "Bearer tok"
            cookie_cleared := false } := by
  exact ⟨rfl, by decide, by decide⟩

/-- C2 amended: only the JSON API enforces the active flag.  The API
login rejects an existing, password-matching but inactive identity
with the generic 401 "Invalid credentials"; the web cookie reader
`get_current_user_from_cookie` performs no active-flag check and
returns the identity resolved from a valid access token even when that
identity is inactive. -/
theorem C2_active_flag_only_in_api (serialize : Jwt → String)
    (parse : String → Option Jwt) (now dtime : Int)
    (bcrypt : String → String → Except String Bool)
    (db db2 : List User) (email password : String) (u v : User)
    (t : Jwt) (raw subStr : String)
    (hu : dbFirstByEmail db email = some u)
    (hpw : verify_password bcrypt password u.password_hash = .ok true)
    (hinact : u.is_active = false)
    (hbearer : ("Bearer ".data.isPrefixOf raw.data) = true)
    (hparse : parse (raw.drop 7) = some t)
    (hkey : t.key = SECRET_KEY) (halg : t.alg = JWT_ALGO)
    (hexp : dtime ≤ t.payload.exp)
    (htype : t.payload.type = some "access")
    (hsub : t.payload.sub = some subStr)
    (hsubint : pyInt subStr = some v.id)
    (hget : dbGetUser db2 v.id = some v)
    (hvinact : v.is_active = false) :
    login serialize now bcrypt db email password =
      .error (.http 401 "Invalid credentials") ∧
    get_current_user_from_cookie parse dtime db2 (some raw) =
      .ok (some v) := by
  constructor
  · simp [login, hu, hpw, hinact]
  · have hraw : ¬ (raw = "") := by
      intro h
      rw [h] at hbearer
      exact absurd hbearer (by decide)
    have hsne : ¬ (subStr = "") := by
      intro h
      rw [h] at hsubint
      have : pyInt "" = none := by decide
      rw [this] at hsubint
      exact Option.noConfusion hsubint
    simp [get_current_user_from_cookie, decode_token, jwtDecode, hraw,
      hbearer, hparse, hkey, halg, not_lt.mpr hexp, htype, hsub, hsne,
      hsubint, hget]

/-- The concrete access token for `uC2` used in the C2 witness. -/
def tC2 : Jwt :=
  { payload := { sub := some "1", type := some "access", iat := 0, exp := 100 }
    key := SECRET_KEY, alg := JWT_ALGO }

/-- The concrete wire parser for the C2 witness: the string "x" parses
to `tC2`, everything else is malformed. -/
def parseC2 : String → Option Jwt :=
  fun str => if str = "x" then some tC2 else none

/-- Witness for C2 amended at the concrete inactive user `uC2`: the API
login rejects with 401, while the web cookie reader returns the
inactive identity. -/
theorem C2_active_flag_only_in_api_witness :
    login (fun _ => "tok") 0 bcryptOk [uC2] "u@x.com" "pw" =
      .error (.http 401 "Invalid credentials") ∧
    get_current_user_from_cookie parseC2 50 [uC2] (some "Bearer x") =
      .ok (some uC2) :=
  C2_active_flag_only_in_api (fun _ => "tok") parseC2 0 50 bcryptOk
    [uC2] [uC2] "u@x.com" "pw" uC2 uC2 tC2 "Bearer x" "1"
    (by decide) (by decide) (by decide) (by decide) (by decide)
    (by decide) (by decide) (by decide) (by decide) (by decide)
    (by decide) (by decide) (by decide)

/-- A successful `check_code_and_update` always leaves the session with
the OTP context cleared (the only `true` branch runs `clear_otp_ctx`). -/
lemma check_code_success (now : Int) (s s1 : SessionData) (code msg : String)
    (h : check_code_and_update now s code = (s1, true, msg)) :
    s1 = { s with otp_ctx := none } := by
  unfold check_code_and_update get_otp_ctx clear_otp_ctx at h
  rcases hc : s.otp_ctx with _ | ctx <;> rw [hc] at h
  · simp at h
  · by_cases hexp : is_expired now ctx = true
    · simp [hexp] at h
    · by_cases hatt : ctx.attempts_left ≤ 0
      · simp [hexp, hatt] at h
      · by_cases hw : pyStrip code = "" ∨ pyStrip code ≠ pyStrip ctx.code
        · by_cases hlast : ctx.attempts_left - 1 ≤ 0
          · simp [hexp, hatt, hw, hlast] at h
          · simp [hexp, hatt, hw, hlast] at h
        · simp [hexp, hatt, hw] at h
          exact h.1.symm

/-- C10: when the OTP check succeeds but the popped
`post_otp_user_id` is falsy or resolves to no user, `verify_submit`
redirects to /login with no cookie and no user-table change — yet the
OTP context was consumed by the successful check, so resubmitting the
same (or any) code now reports that no OTP session exists. -/
theorem C10_lost_user_after_consumed_otp (serialize : Jwt → String)
    (now : Int) (db : List User) (s s1 : SessionData)
    (code csrf msg : String)
    (hcsrf : require_csrf s (some csrf) = .ok ())
    (hcheck : check_code_and_update now s code = (s1, true, msg))
    (hbad : poppedUserId s1 = none ∨ poppedUserId s1 = some 0 ∨
      (∃ uid : Int, poppedUserId s1 = some uid ∧ dbGetUser db uid = none)) :
    (verify_submit serialize now db s code csrf).db = db ∧
    (verify_submit serialize now db s code csrf).resp =
      .ok { redirect_url := "/login", cookie_set := none
            cookie_cleared := false } ∧
    (verify_submit serialize now db s code csrf).session.otp_ctx = none ∧
    check_code_and_update now
        (verify_submit serialize now db s code csrf).session code =
      ((verify_submit serialize now db s code csrf).session, false,
        "No OTP session found. Please log in again.") := by
  have hs1 : s1 = { s with otp_ctx := none } :=
    check_code_success now s s1 code msg hcheck
  have hv : ∃ txt : String,
      verify_submit serialize now db s code csrf =
        { session := flash { s1 with post_otp_user_id := none } txt "error"
          db := db
          resp := .ok { redirect_url := "/login", cookie_set := none
                        cookie_cleared := false } } := by
    rcases hbad with hb | hb | ⟨uid, hb, hg⟩
    · exact ⟨"Session lost user id. Please log in again.",
        by simp [verify_submit, hcsrf, hcheck, hb]⟩
    · exact ⟨"Session lost user id. Please log in again.",
        by simp [verify_submit, hcsrf, hcheck, hb]⟩
    · by_cases h0 : uid = 0
      · subst h0
        exact ⟨"Session lost user id. Please log in again.",
          by simp [verify_submit, hcsrf, hcheck, hb]⟩
      · exact ⟨"User not found. Please log in again.",
          by simp [verify_submit, hcsrf, hcheck, hb, h0, hg]⟩
  obtain ⟨txt, hv⟩ := hv
  have hsotp :
      (verify_submit serialize now db s code csrf).session.otp_ctx = none := by
    rw [hv]
    show s1.otp_ctx = none
    rw [hs1]
  exact ⟨by rw [hv], by rw [hv], hsotp, check_none_state now _ code hsotp⟩

/-- A concrete session holding a live context whose code is "123456"
but no stored `post_otp_user_id` key. -/
def sC10 : SessionData :=
  { csrf_token := some "t", otp_ctx := some ctxC3
    post_otp_user_id := none, flashes := [] }

/-- Witness for C10: submitting the correct code with no pending user
id in the session redirects to /login without touching the user table
or issuing a cookie, and the consumed code cannot be resubmitted. -/
theorem C10_lost_user_after_consumed_otp_witness :
    (verify_submit (fun _ => "tok") 0 [] sC10 "123456" "t").db = [] ∧
    (verify_submit (fun _ => "tok") 0 [] sC10 "123456" "t").resp =
      .ok { redirect_url := "/login", cookie_set := none
            cookie_cleared := false } ∧
    (verify_submit (fun _ => "tok") 0 [] sC10 "123456" "t").session.otp_ctx
      = none ∧
    check_code_and_update 0
        (verify_submit (fun _ => "tok") 0 [] sC10 "123456" "t").session
        "123456" =
      ((verify_submit (fun _ => "tok") 0 [] sC10 "123456" "t").session,
        false, "No OTP session found. Please log in again.") :=
  C10_lost_user_after_consumed_otp (fun _ => "tok") 0 [] sC10
    ({ sC10 with otp_ctx := none }) "123456" "t" "OTP verified."
    (by decide) (by decide) (Or.inl (by decide))
